import Mathlib

set_option maxHeartbeats 1000000

set_option maxRecDepth 16384

/-!
Verification development for the career-guidance Streamlit application
(`app.py`).  Python strings are modelled as `List Char`; the Python
string operations used by the program (`replace`, `strip`, `find`,
`startswith`, `endswith`, slicing, the `in` test) are translated
explicitly below.  Stateful UI handlers are modelled as explicit
state-passing functions over a session-state record, with the external
model/agent supplied as an oracle of type `PyStr → Except PyStr PyStr`
so that raised exceptions and produced prompts are observable.
-/

abbrev PyStr := List Char

/-- The apostrophe character (codepoint 39). -/
def sqC : Char := Char.ofNat 39

/-- The double-quote character (codepoint 34). -/
def dqC : Char := Char.ofNat 34

/-- The backslash character (codepoint 92). -/
def bsC : Char := Char.ofNat 92

/-- The newline character (codepoint 10). -/
def nlC : Char := Char.ofNat 10

/-- The carriage-return character (codepoint 13). -/
def crC : Char := Char.ofNat 13

/-- The wrapper marker `content=` followed by an apostrophe, tested by
`as_markdown` via `val.startswith`. -/
def contentSq : PyStr := "content=".data ++ [sqC]

/-- The wrapper marker `content=` followed by a double quote. -/
def contentDq : PyStr := "content=".data ++ [dqC]

/-- The two-character literal backslash-n sequence that Python writes as
a backslash followed by the letter n inside a plain string. -/
def bsnS : PyStr := [bsC, 'n']

/-- A single newline, the replacement text of the backslash-n rewrite. -/
def nl1 : PyStr := [nlC]

/-- Two consecutive newlines. -/
def nl2 : PyStr := [nlC, nlC]

/-- Three consecutive newlines, the pattern collapsed by the while loop
in `as_markdown`. -/
def nl3 : PyStr := [nlC, nlC, nlC]

/-- A single carriage return, the pattern removed by `as_markdown`. -/
def crS : PyStr := [crC]

/-- Python `s.startswith(pat)` on the list model. -/
def listStartsWith : PyStr → PyStr → Bool
  | _, [] => true
  | [], _ :: _ => false
  | c :: s, p :: ps => c == p && listStartsWith s ps

/-- Python `pat in s` (substring test) on the list model. -/
def listContains (pat : PyStr) : PyStr → Bool
  | [] => listStartsWith [] pat
  | c :: rest => listStartsWith (c :: rest) pat || listContains pat rest

/-- Fuel-indexed worker of Python `s.replace(pat, rep)`: scan left to
right; on a match emit `rep` and skip `pat.length` characters, otherwise
emit one character and continue.  A fuel of `s.length` always suffices
(see `pyReplaceGo_fuel`). -/
def pyReplaceGo (pat rep : PyStr) : Nat → PyStr → PyStr
  | 0, s => s
  | _ + 1, [] => []
  | fuel + 1, c :: rest =>
    if listStartsWith (c :: rest) pat && !pat.isEmpty then
      rep ++ pyReplaceGo pat rep fuel ((c :: rest).drop pat.length)
    else
      c :: pyReplaceGo pat rep fuel rest

/-- Python `s.replace(pat, rep)` (all occurrences, non-overlapping,
left to right). -/
def pyReplace (pat rep s : PyStr) : PyStr :=
  pyReplaceGo pat rep s.length s

/-- Fuel-indexed worker of the `while` loop
`while "nl nl nl" in val: val = val.replace(three newlines, two)`.
Each iteration with an occurrence strictly shrinks the string, so a fuel
of `s.length` always suffices (see `collapseGo_no_nl3`). -/
def collapseGo : Nat → PyStr → PyStr
  | 0, s => s
  | fuel + 1, s =>
    if listContains nl3 s then collapseGo fuel (pyReplace nl3 nl2 s) else s

/-- The blank-line collapsing loop of `as_markdown`. -/
def collapseNewlines (s : PyStr) : PyStr := collapseGo s.length s

/-- The ASCII whitespace characters removed by Python `str.strip()`
(space, tab, newline, carriage return, vertical tab, form feed); the
program only ever deals in these. -/
def pyIsSpace (c : Char) : Bool :=
  c == ' ' || c == Char.ofNat 9 || c == nlC || c == crC ||
    c == Char.ofNat 11 || c == Char.ofNat 12

/-- Python `s.strip()`: drop whitespace from both ends. -/
def pyStrip (s : PyStr) : PyStr :=
  ((s.dropWhile pyIsSpace).reverse.dropWhile pyIsSpace).reverse

/-- Python `s.find(c) + 1` for a one-character needle: index of the first
occurrence plus one, and `0` (that is, `-1 + 1`) when absent. -/
def pyFindP1 (c : Char) (s : PyStr) : Nat :=
  match s.findIdx? (· == c) with
  | some i => i + 1
  | none => 0

/-- Lines 17-21 of `app.py`: if the text starts with a `content=` wrapper
marker, drop everything up to and including the first quote character
(apostrophe preferred when present anywhere, else double quote), then
drop a single trailing quote character when one is present. -/
def stripWrapper (val : PyStr) : PyStr :=
  if listStartsWith val contentSq || listStartsWith val contentDq then
    let start := if val.contains sqC then pyFindP1 sqC val else pyFindP1 dqC val
    let val2 := val.drop start
    match val2.getLast? with
    | some c => if c == sqC || c == dqC then val2.dropLast else val2
    | none => val2
  else val

/-- `as_markdown` (lines 13-25 of `app.py`) on the extracted string of
the model output: strip the `content=` wrapper, rewrite literal
backslash-n pairs to newlines, delete carriage returns, collapse runs of
three or more newlines to two, and strip surrounding whitespace. -/
def as_markdown (output : PyStr) : PyStr :=
  pyStrip (collapseNewlines (pyReplace crS [] (pyReplace bsnS nl1 (stripWrapper output))))

/-- The model/agent oracle: maps a prompt to either a normal text answer
(`Except.ok`) or a raised exception carrying its message
(`Except.error`). -/
abbrev LLM := PyStr → Except PyStr PyStr

/-- One entry of the chat transcript: a role (`user` or `assistant`) and
a text. -/
structure ChatMsg where
  role : PyStr
  content : PyStr
deriving DecidableEq

/-- The session-state fields used by the program, after
`initialize_session_state` has run (every key present). -/
structure SessionState where
  chat_history : List ChatMsg
  chat_messages : List ChatMsg
  career_insights : Option PyStr
  market_analysis : Option PyStr
  college_recommendations : Option PyStr
  resume_feedback : Option PyStr
  selected_career : Option PyStr
  api_keys_validated : Bool
  active_tab : PyStr
deriving DecidableEq

/-- The raw session-state dictionary: each field is `none` when the key
is absent and `some v` when the key is present with value `v`. -/
structure PSession where
  chat_history : Option (List ChatMsg)
  chat_messages : Option (List ChatMsg)
  career_insights : Option (Option PyStr)
  market_analysis : Option (Option PyStr)
  college_recommendations : Option (Option PyStr)
  resume_feedback : Option (Option PyStr)
  selected_career : Option (Option PyStr)
  api_keys_validated : Option Bool
  active_tab : Option PyStr
deriving DecidableEq

/-- `initialize_session_state` (lines 99-113): set every key that is not
already present to its default. -/
def initialize_session_state (p : PSession) : PSession where
  chat_history := some (p.chat_history.getD [])
  chat_messages := some (p.chat_messages.getD [])
  career_insights := some (p.career_insights.getD none)
  market_analysis := some (p.market_analysis.getD none)
  college_recommendations := some (p.college_recommendations.getD none)
  resume_feedback := some (p.resume_feedback.getD none)
  selected_career := some (p.selected_career.getD none)
  api_keys_validated := some (p.api_keys_validated.getD false)
  active_tab := some (p.active_tab.getD "career_insights".data)

/-- The Clear Session button handler (lines 429-432): delete every key
of the session-state dictionary. -/
def clearSessionKeys (_ : PSession) : PSession where
  chat_history := none
  chat_messages := none
  career_insights := none
  market_analysis := none
  college_recommendations := none
  resume_feedback := none
  selected_career := none
  api_keys_validated := none
  active_tab := none

/-- Read an initialized session (each absent field falls back to the
same default `initialize_session_state` would have installed). -/
def toSession (p : PSession) : SessionState where
  chat_history := p.chat_history.getD []
  chat_messages := p.chat_messages.getD []
  career_insights := p.career_insights.getD none
  market_analysis := p.market_analysis.getD none
  college_recommendations := p.college_recommendations.getD none
  resume_feedback := p.resume_feedback.getD none
  selected_career := p.selected_career.getD none
  api_keys_validated := p.api_keys_validated.getD false
  active_tab := p.active_tab.getD "career_insights".data

/-- Store a fully materialized session back as a dictionary with every
key present. -/
def ofSession (s : SessionState) : PSession where
  chat_history := some s.chat_history
  chat_messages := some s.chat_messages
  career_insights := some s.career_insights
  market_analysis := some s.market_analysis
  college_recommendations := some s.college_recommendations
  resume_feedback := some s.resume_feedback
  selected_career := some s.selected_career
  api_keys_validated := some s.api_keys_validated
  active_tab := some s.active_tab

/-- The career-insights prompt (lines 165-181): text before the category
substitution. -/
def careerPromptA : PyStr := "
Generate a comprehensive career analysis for:

**Category**: ".data

/-- The career-insights prompt: text between the category and the
career substitutions. -/
def careerPromptB : PyStr := "
**Career**: ".data

/-- The career-insights prompt: text after the career substitution. -/
def careerPromptC : PyStr := "

Provide structured markdown that includes:
1) Career Overview (role, responsibilities, daily tasks)
2) Required Skills & Tools (technical + soft skills)
3) Learning Roadmap (beginner → intermediate → advanced)
4) Career Progression Path (roles & salary bands in India)
5) Future Outlook & trends
6) Suggested Resources (courses, books, certifications)
7) Quick Reference Summary (salary ranges in INR, demand in India, remote options)

Keep the output practical, actionable, and formatted in markdown. Focus on the Indian job market context.
".data

/-- The f-string `career_prompt` of `generate_career_insights`. -/
def career_prompt (category subcareer : PyStr) : PyStr :=
  careerPromptA ++ category ++ careerPromptB ++ subcareer ++ careerPromptC

/-- The market-analysis prompt (lines 197-211): text before the role
substitution, ending in an opening double quote. -/
def marketPromptA : PyStr :=
  "
Search the web (live) and analyze the current job market in India for the role: ".data ++ [dqC]

/-- The market-analysis prompt: text after the role substitution,
starting with the closing double quote. -/
def marketPromptB : PyStr := [dqC] ++ ".

Please include:
- Current job demand and hiring trends in India (last 12 months)
- Typical salary ranges in INR (entry / mid / senior level)
- Top Indian companies hiring and industry sectors
- Major hiring cities in India (Bangalore, Mumbai, Delhi, Hyderabad, Pune, etc.)
- Skills in highest demand for this role in India
- Remote work availability and trends in India
- Short list of sources (urls or site names) used

Return a concise, well-structured markdown analysis with bullet points and a small summary table.
Focus specifically on the Indian job market.
".data

/-- The f-string `market_prompt` of `generate_market_analysis`. -/
def market_prompt (subcareer : PyStr) : PyStr :=
  marketPromptA ++ subcareer ++ marketPromptB

/-- The college prompt (lines 227-263): text before the role
substitution, ending in an opening double quote. -/
def collegePromptA : PyStr :=
  "
As a college advisor, provide detailed recommendations for pursuing a career in ".data ++ [dqC]

/-- The college prompt: text after the role substitution, starting with
the closing double quote. -/
def collegePromptB : PyStr := [dqC] ++ " in India.

Please include:

1) **Recommended Educational Paths**:
   - Degree programs (BTech, BSc, BA, MBA, MSc, etc.)
   - Specializations to focus on
   - Duration and typical eligibility

2) **Top Indian Colleges/Universities** (at least 10-15):
   - IITs, NITs, IIITs, and other premier institutes
   - State universities and private colleges
   - Include admission processes (JEE, GATE, CAT, etc.)
   - Approximate fees and placement records where known

3) **Alternative Education Paths**:
   - Online courses and certifications
   - Bootcamps and vocational training
   - Diploma programs

4) **Entrance Exams**:
   - Required entrance exams for admission
   - Preparation tips and resources

5) **Scholarships & Financial Aid**:
   - Government scholarships available
   - Merit-based and need-based options

6) **Additional Tips**:
   - Best states/cities for education in this field
   - Industry certifications to pursue alongside degree
   - Internship opportunities during education

Format the response in clear markdown with sections, bullet points, and tables where appropriate.
Focus exclusively on Indian institutions and the Indian education system.
".data

/-- The f-string `college_prompt` of `generate_college_recommendations`. -/
def college_prompt (subcareer : PyStr) : PyStr :=
  collegePromptA ++ subcareer ++ collegePromptB

/-- The resume prompt (lines 279-329): text before the target-role
substitution, ending in an opening double quote. -/
def resumePromptA : PyStr :=
  "
As an expert resume coach, analyze the following resume for the target role: ".data ++ [dqC]

/-- The resume prompt: text between the target role and the resume text,
starting with the closing double quote. -/
def resumePromptB : PyStr := [dqC] ++ "

**Resume Content**:
".data

/-- The resume prompt: text after the resume-text substitution. -/
def resumePromptC : PyStr := "

Provide comprehensive feedback in the following structure:

1) **Overall Assessment** (Score: X/10):
   - Brief summary of strengths and weaknesses
   - First impression rating

2) **Content Analysis**:
   - Relevance to target role
   - Key achievements and quantifiable results
   - Skills alignment with job requirements
   - Missing critical information

3) **Format & Structure**:
   - Layout and readability assessment
   - Section organization
   - Length appropriateness

4) **Specific Improvements Needed**:
   - What to add (skills, experiences, keywords)
   - What to remove or reduce
   - How to rephrase key sections
   - ATS (Applicant Tracking System) optimization tips

5) **Section-by-Section Feedback**:
   - Summary/Objective
   - Work Experience
   - Education
   - Skills
   - Projects/Certifications

6) **Action Items** (Priority-ordered):
   - Top 5-7 changes to make immediately
   - Keywords to include for ATS
   - Formatting improvements

7) **Example Improvements**:
   - Before/After examples for 2-3 bullet points
   - Better ways to phrase achievements

8) **Industry-Specific Tips**:
   - Tailored advice for the Indian job market
   - Cultural considerations for Indian recruiters

Be constructive, specific, and actionable. Use markdown formatting with clear sections.
".data

/-- The f-string `resume_prompt` of `generate_resume_feedback`. -/
def resume_prompt (resume_text target_role : PyStr) : PyStr :=
  resumePromptA ++ target_role ++ resumePromptB ++ resume_text ++ resumePromptC

/-- The chat prompt (lines 356-369): text before the conversation
context. -/
def chatPromptA : PyStr := "You are a helpful AI career advisor with expertise in:
- Career guidance and job market trends (especially in India)
- Indian colleges and universities
- Resume writing and optimization
- Skills development and learning paths

Conversation context:
".data

/-- The chat prompt: text between the context and the user question. -/
def chatPromptB : PyStr := "

User question: ".data

/-- The chat prompt: text after the user question. -/
def chatPromptC : PyStr := "

Provide a helpful, concise answer. If you need live data about Indian colleges, job markets, or current trends, use the web_search tool.
When discussing education, focus on Indian institutions. When discussing salaries, use INR.
".data

/-- The f-string `chat_prompt` of `create_chat_interface`. -/
def chat_prompt_text (context_preview question : PyStr) : PyStr :=
  chatPromptA ++ context_preview ++ chatPromptB ++ question ++ chatPromptC

/-- Message of the `RuntimeError` raised when the model handle is
absent. -/
def errNoLLM : PyStr := "LLM not initialized".data

/-- Error text returned by `generate_career_insights` on any caught
exception, up to the interpolated message. -/
def errCareer : PyStr := "❌ Unable to generate career insights. Error: ".data

/-- Error text returned by `generate_market_analysis` on any caught
exception. -/
def errMarket : PyStr := "❌ Unable to fetch market analysis. Error: ".data

/-- Error text returned by `generate_college_recommendations` on any
caught exception. -/
def errCollege : PyStr := "❌ Unable to generate college recommendations. Error: ".data

/-- Error text returned by `generate_resume_feedback` on any caught
exception. -/
def errResume : PyStr := "❌ Unable to analyze resume. Error: ".data

/-- Error text recorded by the chat handler on any caught exception. -/
def errChat : PyStr := "❌ Error while answering: ".data

/-- `generate_career_insights` (lines 160-190): build the prompt and
invoke the model once inside a `try`; a missing model or a raised
exception yields the inline error string.  The second component lists
the prompts actually sent to the model. -/
def generate_career_insights (category subcareer : PyStr) (llm : Option LLM) :
    PyStr × List PyStr :=
  match llm with
  | none => (errCareer ++ errNoLLM, [])
  | some f =>
    let p := career_prompt category subcareer
    match f p with
    | Except.ok out => (out, [p])
    | Except.error e => (errCareer ++ e, [p])

/-- `generate_market_analysis` (lines 192-220). -/
def generate_market_analysis (subcareer : PyStr) (llm : Option LLM) :
    PyStr × List PyStr :=
  match llm with
  | none => (errMarket ++ errNoLLM, [])
  | some f =>
    let p := market_prompt subcareer
    match f p with
    | Except.ok out => (out, [p])
    | Except.error e => (errMarket ++ e, [p])

/-- `generate_college_recommendations` (lines 222-272). -/
def generate_college_recommendations (subcareer : PyStr) (llm : Option LLM) :
    PyStr × List PyStr :=
  match llm with
  | none => (errCollege ++ errNoLLM, [])
  | some f =>
    let p := college_prompt subcareer
    match f p with
    | Except.ok out => (out, [p])
    | Except.error e => (errCollege ++ e, [p])

/-- `generate_resume_feedback` (lines 274-338). -/
def generate_resume_feedback (resume_text target_role : PyStr) (llm : Option LLM) :
    PyStr × List PyStr :=
  match llm with
  | none => (errResume ++ errNoLLM, [])
  | some f =>
    let p := resume_prompt resume_text target_role
    match f p with
    | Except.ok out => (out, [p])
    | Except.error e => (errResume ++ e, [p])

/-- The Analyze Resume button handler (lines 584-590): reject an empty
or too-short resume with a warning, otherwise pick the target role
(typed text when non-empty, else the selected career) and run the
feedback generation, caching the result.  Returns the new state, the
warning flag, and the prompts sent to the model. -/
def analyzeResumeStep (st : SessionState)
    (resume_text target_role_input selected_subcareer : PyStr)
    (llm : Option LLM) : SessionState × Bool × List PyStr :=
  if resume_text = [] ∨ (pyStrip resume_text).length < 100 then
    (st, true, [])
  else
    let target_role := if target_role_input ≠ [] then target_role_input else selected_subcareer
    let r := generate_resume_feedback resume_text target_role llm
    ({ st with resume_feedback := some r.1 }, false, r.2)

/-- The per-message rendering of the conversation context
(line 353-355): `role: content` lines joined by newlines. -/
def renderContext (msgs : List ChatMsg) : PyStr :=
  List.intercalate nl1 (msgs.map (fun m => m.role ++ ": ".data ++ m.content))

/-- The transcript with the just-submitted user entry appended
(line 349). -/
def chatMsgs1 (st : SessionState) (p : PyStr) : List ChatMsg :=
  st.chat_messages ++ [ChatMsg.mk "user".data p]

/-- The `chat_prompt` built from the transcript with the new user entry
appended: the context is the last eight entries (Python `[-8:]`). -/
def chatPromptOf (st : SessionState) (p : PyStr) : PyStr :=
  chat_prompt_text
    (renderContext ((chatMsgs1 st p).drop ((chatMsgs1 st p).length - 8))) p

/-- `create_chat_interface` (lines 340-384) for one render cycle: when
a question was submitted, append the user entry, build the context from
the last eight transcript entries, invoke the agent once, and append the
assistant entry (the normalized answer, or the inline error message when
the agent raises).  Returns the new state and the prompts sent. -/
def chatStep (st : SessionState) (chat_input : Option PyStr) (agent : LLM) :
    SessionState × List PyStr :=
  match chat_input with
  | none => (st, [])
  | some p =>
    match agent (chatPromptOf st p) with
    | Except.ok r =>
      ({ st with chat_messages :=
          chatMsgs1 st p ++ [ChatMsg.mk "assistant".data (as_markdown r)] },
        [chatPromptOf st p])
    | Except.error e =>
      ({ st with chat_messages :=
          chatMsgs1 st p ++ [ChatMsg.mk "assistant".data (errChat ++ e)] },
        [chatPromptOf st p])

/-- `initialize_llm_and_tools` (lines 116-144): raise (and catch,
returning the `(None, None)` pair) when either key is empty or the
client construction fails; otherwise return the model and the single
search tool. -/
def initialize_llm_and_tools (google_api_key serpapi_key : PyStr)
    (mkInit : Except PyStr LLM) : Option LLM × Option (List Unit) :=
  if google_api_key = [] then (none, none)
  else if serpapi_key = [] then (none, none)
  else
    match mkInit with
    | Except.error _ => (none, none)
    | Except.ok llm => (some llm, some [()])

/-- `create_agent_with_tools` (lines 146-158): the agent executor, or
`None` when its construction raises. -/
def create_agent_with_tools (mkAgent : Except PyStr LLM) : Option LLM :=
  match mkAgent with
  | Except.ok agent => some agent
  | Except.error _ => none

/-- The static career taxonomy `CAREER_CATEGORIES` (lines 43-92). -/
def CAREER_CATEGORIES : List (PyStr × List PyStr) :=
  [("💻 Technology".data,
    ["AI & Machine Learning Engineer".data, "Data Scientist".data,
     "Cybersecurity Analyst".data, "Cloud Solutions Architect".data,
     "Full Stack Developer".data, "DevOps Engineer".data,
     "Blockchain Developer".data, "Mobile App Developer".data,
     "Data Engineer".data, "Software Quality Assurance Engineer".data]),
   ("🩺 Healthcare".data,
    ["Medical Data Analyst".data, "Telehealth Specialist".data,
     "Biomedical Engineer".data, "Clinical Research Associate".data,
     "Healthcare Administrator".data, "Public Health Specialist".data,
     "Medical Laboratory Technologist".data, "Physiotherapist".data,
     "Pharmacy Manager".data, "Healthcare IT Consultant".data]),
   ("💼 Business".data,
    ["Business Analyst".data, "Digital Marketing Strategist".data,
     "Financial Data Analyst".data, "Product Manager".data,
     "HR Analytics Specialist".data, "Management Consultant".data,
     "Supply Chain Analyst".data, "Investment Banker".data,
     "Brand Manager".data, "Operations Manager".data]),
   ("🎥 Content Creation".data,
    ["Video Content Strategist".data, "Social Media Manager".data,
     "Copywriter / Content Writer".data, "Graphic Designer".data,
     "SEO Specialist".data, "Podcast Producer".data,
     "UX/UI Designer".data, "Video Editor".data,
     "Influencer Marketing Manager".data, "Content Marketing Strategist".data])]

/-- The separator of the cached `selected_career` label. -/
def arrowSep : PyStr := " → ".data

/-- The user inputs of one render cycle of `main`. -/
structure MainInput where
  google_key : PyStr
  serpapi_key : PyStr
  selected_category : PyStr
  selected_subcareer : PyStr
  btn_career_insights : Bool
  btn_market_analysis : Bool
  btn_college_recs : Bool
  btn_resume_analysis : Bool
  resume_text : PyStr
  target_role_input : PyStr
  chat_input : Option PyStr

/-- One render cycle of `main` (lines 386-606): initialize the session,
set the credentials flag from the two keys, and return early (no model
construction, no calls) unless both keys are non-empty and the model and
agent initialize; otherwise run the four feature tabs and the chat in
order.  The second component collects every prompt sent to the model or
agent during the cycle. -/
def mainStep (inp : MainInput) (p0 : PSession)
    (mkInit : Except PyStr LLM) (mkAgent : Except PyStr LLM) :
    PSession × List PyStr :=
  let p1 := initialize_session_state p0
  let st := toSession p1
  let api_ok := !inp.google_key.isEmpty && !inp.serpapi_key.isEmpty
  let st := { st with api_keys_validated := api_ok }
  if !api_ok then (ofSession st, [])
  else
    match initialize_llm_and_tools inp.google_key inp.serpapi_key mkInit with
    | (some llm, some _tools) =>
      match create_agent_with_tools mkAgent with
      | none => (ofSession st, [])
      | some agent =>
        let label := some (inp.selected_category ++ arrowSep ++ inp.selected_subcareer)
        let s1 :=
          if inp.btn_career_insights then
            let stA := { st with selected_career := label }
            let r := generate_career_insights inp.selected_category
              inp.selected_subcareer (some llm)
            ({ stA with career_insights := some r.1 }, r.2)
          else (st, [])
        let s2 :=
          if inp.btn_market_analysis then
            let stA := { s1.1 with selected_career := label }
            let r := generate_market_analysis inp.selected_subcareer (some llm)
            ({ stA with market_analysis := some r.1 }, r.2)
          else (s1.1, [])
        let s3 :=
          if inp.btn_college_recs then
            let stA := { s2.1 with selected_career := label }
            let r := generate_college_recommendations inp.selected_subcareer (some llm)
            ({ stA with college_recommendations := some r.1 }, r.2)
          else (s2.1, [])
        let s4 :=
          if inp.btn_resume_analysis then
            let r := analyzeResumeStep s3.1 inp.resume_text inp.target_role_input
              inp.selected_subcareer (some llm)
            (r.1, r.2.2)
          else (s3.1, [])
        let s5 := chatStep s4.1 inp.chat_input agent
        (ofSession s5.1, s1.2 ++ s2.2 ++ s3.2 ++ s4.2 ++ s5.2)
    | (_, _) => (ofSession st, [])

/-! ### Basic facts about the string-scanning primitives -/

theorem listStartsWith_nil_right (s : PyStr) : listStartsWith s [] = true := by
  cases s <;> rfl

theorem listStartsWith_length {s pat : PyStr} (h : listStartsWith s pat = true) :
    pat.length ≤ s.length := by
  induction pat generalizing s with
  | nil => simp
  | cons p ps ih =>
    cases s with
    | nil => simp [listStartsWith] at h
    | cons c cs =>
      simp only [listStartsWith, Bool.and_eq_true] at h
      simpa using Nat.succ_le_succ (ih h.2)

theorem listStartsWith_append {s pat : PyStr} (b : PyStr)
    (h : listStartsWith s pat = true) : listStartsWith (s ++ b) pat = true := by
  induction pat generalizing s with
  | nil => exact listStartsWith_nil_right _
  | cons p ps ih =>
    cases s with
    | nil => simp [listStartsWith] at h
    | cons c cs =>
      simp only [listStartsWith, Bool.and_eq_true] at h
      simp only [List.cons_append, listStartsWith, Bool.and_eq_true]
      exact ⟨h.1, ih h.2⟩

theorem listContains_nil_pat (s : PyStr) : listContains [] s = true := by
  cases s with
  | nil => rfl
  | cons c rest => simp [listContains, listStartsWith_nil_right]

theorem listContains_append_left {x pat : PyStr} (a : PyStr)
    (h : listContains pat x = true) : listContains pat (a ++ x) = true := by
  induction a with
  | nil => simpa
  | cons c cs ih =>
    simp only [List.cons_append, listContains, Bool.or_eq_true]
    exact Or.inr ih

theorem listContains_append_right {x pat : PyStr} (b : PyStr)
    (h : listContains pat x = true) : listContains pat (x ++ b) = true := by
  induction x with
  | nil =>
    cases pat with
    | nil => exact listContains_nil_pat b
    | cons p ps => simp [listContains, listStartsWith] at h
  | cons c cs ih =>
    simp only [listContains, Bool.or_eq_true] at h
    simp only [List.cons_append, listContains, Bool.or_eq_true]
    rcases h with h | h
    · exact Or.inl (listStartsWith_append b h)
    · exact Or.inr (ih h)

theorem listContains_of_mid {x pat : PyStr} (a b : PyStr)
    (h : listContains pat x = true) : listContains pat (a ++ x ++ b) = true := by
  rw [List.append_assoc]
  exact listContains_append_left a (listContains_append_right b h)

theorem listContains_singleton (c : Char) (s : PyStr) :
    listContains [c] s = true ↔ c ∈ s := by
  induction s with
  | nil => simp [listContains, listStartsWith]
  | cons d rest ih =>
    simp only [listContains, listStartsWith, listStartsWith_nil_right,
      Bool.and_true, Bool.or_eq_true, beq_iff_eq, ih, List.mem_cons]
    constructor
    · rintro (rfl | h)
      · exact Or.inl rfl
      · exact Or.inr h
    · rintro (rfl | h)
      · exact Or.inl rfl
      · exact Or.inr h

/-! ### Facts about `pyReplaceGo` and `pyReplace` -/

theorem pyReplaceGo_zero (pat rep s : PyStr) : pyReplaceGo pat rep 0 s = s := rfl

theorem pyReplaceGo_nil (pat rep : PyStr) (f : Nat) :
    pyReplaceGo pat rep f [] = [] := by
  cases f <;> rfl

theorem pyReplaceGo_fuel (pat rep : PyStr) :
    ∀ f g s, s.length ≤ f → s.length ≤ g →
      pyReplaceGo pat rep f s = pyReplaceGo pat rep g s := by
  intro f
  induction f with
  | zero =>
    intro g s hf _
    cases s with
    | nil => rw [pyReplaceGo_zero, pyReplaceGo_nil]
    | cons c rest => simp at hf
  | succ f ih =>
    intro g s hf hg
    cases s with
    | nil => rw [pyReplaceGo_nil, pyReplaceGo_nil]
    | cons c rest =>
      cases g with
      | zero => simp at hg
      | succ g =>
        simp only [List.length_cons, Nat.succ_le_succ_iff] at hf hg
        simp only [pyReplaceGo]
        split
        case isTrue h =>
          have hp : pat ≠ [] := by
            have h2 := h
            simp only [Bool.and_eq_true] at h2
            simpa [List.isEmpty_iff] using h2.2
          have hlen : ((c :: rest).drop pat.length).length ≤ rest.length := by
            have h1 : 1 ≤ pat.length := by
              cases pat with
              | nil => exact absurd rfl hp
              | cons _ _ => simp
            simp only [List.length_drop, List.length_cons]
            omega
          congr 1
          exact ih g _ (le_trans hlen hf) (le_trans hlen hg)
        case isFalse h =>
          congr 1
          exact ih g rest hf hg

theorem pyReplaceGo_not_contains (pat rep : PyStr) :
    ∀ f s, s.length ≤ f → listContains pat s = false →
      pyReplaceGo pat rep f s = s := by
  intro f
  induction f with
  | zero => intro s _ _; exact pyReplaceGo_zero _ _ _
  | succ f ih =>
    intro s hf hc
    cases s with
    | nil => exact pyReplaceGo_nil _ _ _
    | cons c rest =>
      simp only [listContains, Bool.or_eq_false_iff] at hc
      simp only [List.length_cons, Nat.succ_le_succ_iff] at hf
      simp only [pyReplaceGo]
      rw [if_neg]
      · rw [ih rest hf hc.2]
      · simp [hc.1]

/-- `s.replace(pat, rep)` is the identity when the pattern does not
occur. -/
theorem pyReplace_of_not_contains {pat s : PyStr} (rep : PyStr)
    (hc : listContains pat s = false) : pyReplace pat rep s = s :=
  pyReplaceGo_not_contains pat rep s.length s (le_refl _) hc

theorem pyReplaceGo_not_mem {rep : PyStr} {a : Char} (pat : PyStr) (ha : a ∉ rep) :
    ∀ f s, a ∉ s → a ∉ pyReplaceGo pat rep f s := by
  intro f
  induction f with
  | zero => intro s hs; rw [pyReplaceGo_zero]; exact hs
  | succ f ih =>
    intro s hs
    cases s with
    | nil => rw [pyReplaceGo_nil]; exact hs
    | cons c rest =>
      simp only [pyReplaceGo]
      split
      · intro hmem
        rcases List.mem_append.mp hmem with h | h
        · exact ha h
        · exact ih _ (fun hx => hs (List.drop_subset _ _ hx)) h
      · intro hmem
        rcases List.mem_cons.mp hmem with rfl | h
        · exact hs (List.mem_cons_self _ _)
        · exact ih rest (fun hx => hs (List.mem_cons_of_mem _ hx)) h

theorem pyReplaceGo_length_le {pat rep : PyStr} (hr : rep.length ≤ pat.length) :
    ∀ f s, (pyReplaceGo pat rep f s).length ≤ s.length := by
  intro f
  induction f with
  | zero => intro s; rw [pyReplaceGo_zero]
  | succ f ih =>
    intro s
    cases s with
    | nil => rw [pyReplaceGo_nil]
    | cons c rest =>
      simp only [pyReplaceGo]
      split
      case isTrue h =>
        have hsw : listStartsWith (c :: rest) pat = true := by
          have h2 := h
          simp only [Bool.and_eq_true] at h2
          exact h2.1
        have hpl : pat.length ≤ (c :: rest).length := listStartsWith_length hsw
        have := ih ((c :: rest).drop pat.length)
        simp only [List.length_append, List.length_drop, List.length_cons] at *
        omega
      case isFalse h =>
        have := ih rest
        simp only [List.length_cons]
        omega

theorem pyReplaceGo_length_lt {pat rep : PyStr} (hr : rep.length < pat.length) :
    ∀ f s, s.length ≤ f → listContains pat s = true →
      (pyReplaceGo pat rep f s).length < s.length := by
  intro f
  induction f with
  | zero =>
    intro s hf hc
    cases s with
    | nil =>
      cases pat with
      | nil => simp at hr
      | cons p ps => simp [listContains, listStartsWith] at hc
    | cons c rest => simp at hf
  | succ f ih =>
    intro s hf hc
    cases s with
    | nil =>
      cases pat with
      | nil => simp at hr
      | cons p ps => simp [listContains, listStartsWith] at hc
    | cons c rest =>
      simp only [List.length_cons, Nat.succ_le_succ_iff] at hf
      simp only [pyReplaceGo]
      split
      case isTrue h =>
        have hsw : listStartsWith (c :: rest) pat = true := by
          have h2 := h
          simp only [Bool.and_eq_true] at h2
          exact h2.1
        have hpl : pat.length ≤ (c :: rest).length := listStartsWith_length hsw
        have hle := pyReplaceGo_length_le (le_of_lt hr) f ((c :: rest).drop pat.length)
        simp only [List.length_append, List.length_drop, List.length_cons] at *
        omega
      case isFalse h =>
        have hpe : pat ≠ [] := by
          intro hp
          subst hp
          simp at hr
        have hsw : listStartsWith (c :: rest) pat = false := by
          rcases hb : listStartsWith (c :: rest) pat with _ | _
          · rfl
          · exfalso
            apply h
            simp [hb, List.isEmpty_iff, hpe]
        have hct : listContains pat rest = true := by
          simp only [listContains, Bool.or_eq_true] at hc
          rcases hc with hc | hc
          · rw [hsw] at hc; cases hc
          · exact hc
        have := ih rest hf hct
        simp only [List.length_cons]
        omega

/-- The carriage-return rewrite removes every carriage return. -/
theorem pyReplaceGo_cr_not_mem :
    ∀ f s, s.length ≤ f → crC ∉ pyReplaceGo crS [] f s := by
  intro f
  induction f with
  | zero =>
    intro s hf
    cases s with
    | nil => rw [pyReplaceGo_zero]; simp
    | cons c rest => simp at hf
  | succ f ih =>
    intro s hf
    cases s with
    | nil => rw [pyReplaceGo_nil]; simp
    | cons c rest =>
      simp only [List.length_cons, Nat.succ_le_succ_iff] at hf
      simp only [pyReplaceGo]
      split
      case isTrue h =>
        have : (c :: rest).drop crS.length = rest := by simp [crS]
        rw [this, List.nil_append]
        exact ih rest hf
      case isFalse h =>
        have hcc : ¬ c = crC := by
          intro hc
          apply h
          subst hc
          simp [crS, listStartsWith, listStartsWith_nil_right]
        intro hmem
        rcases List.mem_cons.mp hmem with hc | hm
        · exact hcc hc.symm
        · exact ih rest hf hm

/-! ### Facts about the blank-line collapsing loop -/

theorem collapseGo_zero (s : PyStr) : collapseGo 0 s = s := rfl

theorem collapseGo_succ (f : Nat) (s : PyStr) :
    collapseGo (f + 1) s =
      if listContains nl3 s then collapseGo f (pyReplace nl3 nl2 s) else s := rfl

/-- With fuel at least the length of the string, the collapsing loop
terminates with no three-newline run left. -/
theorem collapseGo_no_nl3 :
    ∀ f s, s.length ≤ f → listContains nl3 (collapseGo f s) = false := by
  intro f
  induction f with
  | zero =>
    intro s hf
    cases s with
    | nil => rfl
    | cons c rest => simp at hf
  | succ f ih =>
    intro s hf
    rw [collapseGo_succ]
    split
    case isTrue h =>
      apply ih
      have hlt : (pyReplace nl3 nl2 s).length < s.length :=
        pyReplaceGo_length_lt (by simp [nl2, nl3]) s.length s (le_refl _) h
      omega
    case isFalse h => simpa using h

/-- The collapsing loop is the identity when no three-newline run is
present. -/
theorem collapseGo_fix (f : Nat) {s : PyStr}
    (h : listContains nl3 s = false) : collapseGo f s = s := by
  cases f with
  | zero => rfl
  | succ f => rw [collapseGo_succ, if_neg]; simp [h]

/-- The collapsing loop only inserts newline characters. -/
theorem collapseGo_not_mem {a : Char} (ha : a ≠ nlC) :
    ∀ f s, a ∉ s → a ∉ collapseGo f s := by
  intro f
  induction f with
  | zero => intro s hs; rw [collapseGo_zero]; exact hs
  | succ f ih =>
    intro s hs
    rw [collapseGo_succ]
    split
    · apply ih
      apply pyReplaceGo_not_mem nl3 _ s.length s hs
      simp [nl2, ha]
    · exact hs

/-! ### Facts about `pyStrip` -/

/-- A stripped string sits inside the original string. -/
theorem pyStrip_decomp (s : PyStr) : ∃ l1 l2, s = l1 ++ pyStrip s ++ l2 := by
  refine ⟨s.takeWhile pyIsSpace,
    ((s.dropWhile pyIsSpace).reverse.takeWhile pyIsSpace).reverse, ?_⟩
  conv_lhs => rw [← List.takeWhile_append_dropWhile pyIsSpace s]
  rw [List.append_assoc]
  congr 1
  conv_lhs => rw [← List.reverse_reverse (s.dropWhile pyIsSpace),
    ← List.takeWhile_append_dropWhile pyIsSpace (s.dropWhile pyIsSpace).reverse]
  rw [List.reverse_append]
  rfl

theorem pyStrip_not_mem {a : Char} {s : PyStr} (h : a ∉ s) : a ∉ pyStrip s := by
  obtain ⟨l1, l2, hdec⟩ := pyStrip_decomp s
  intro hmem
  exact h (hdec ▸ List.mem_append.mpr (Or.inl (List.mem_append.mpr (Or.inr hmem))))

theorem pyStrip_not_contains {pat s : PyStr} (h : listContains pat s = false) :
    listContains pat (pyStrip s) = false := by
  obtain ⟨l1, l2, hdec⟩ := pyStrip_decomp s
  rcases hb : listContains pat (pyStrip s) with _ | _
  · rfl
  · exfalso
    have := listContains_of_mid l1 l2 hb
    rw [← hdec] at this
    rw [this] at h
    cases h

theorem dropWhile_head_all (p : Char → Bool) :
    ∀ l : PyStr, ((l.dropWhile p).head?).all (fun c => !p c) = true := by
  intro l
  induction l with
  | nil => rfl
  | cons c rest ih =>
    rw [List.dropWhile_cons]
    split
    · exact ih
    case isFalse h =>
      simp only [List.head?_cons, Option.all_some]
      simpa using h

theorem dropWhile_getLast? (p : Char → Bool) :
    ∀ l : PyStr, l.dropWhile p = [] ∨ (l.dropWhile p).getLast? = l.getLast? := by
  intro l
  induction l with
  | nil => exact Or.inl rfl
  | cons c rest ih =>
    rw [List.dropWhile_cons]
    split
    case isTrue h =>
      rcases ih with ih | ih
      · exact Or.inl ih
      · cases rest with
        | nil =>
          simp only [List.dropWhile_nil] at ih ⊢
          exact Or.inl trivial
        | cons d ds =>
          right
          rw [ih, List.getLast?_cons_cons]
    case isFalse h => exact Or.inr rfl

/-- The first character of a stripped string is never whitespace. -/
theorem pyStrip_head_all (s : PyStr) :
    ((pyStrip s).head?).all (fun c => !pyIsSpace c) = true := by
  rw [pyStrip, List.head?_reverse]
  rcases dropWhile_getLast? pyIsSpace (s.dropWhile pyIsSpace).reverse with h | h
  · rw [h]; rfl
  · rw [h, List.getLast?_reverse]
    exact dropWhile_head_all pyIsSpace s

/-- The last character of a stripped string is never whitespace. -/
theorem pyStrip_getLast_all (s : PyStr) :
    ((pyStrip s).getLast?).all (fun c => !pyIsSpace c) = true := by
  rw [pyStrip, List.getLast?_reverse]
  exact dropWhile_head_all pyIsSpace (s.dropWhile pyIsSpace).reverse

theorem dropWhile_eq_self_of_head {p : Char → Bool} {l : PyStr}
    (h : (l.head?).all (fun c => !p c) = true) : l.dropWhile p = l := by
  cases l with
  | nil => rfl
  | cons c rest =>
    simp only [List.head?_cons, Option.all_some] at h
    rw [List.dropWhile_cons, if_neg]
    simpa using h

/-- `strip` is the identity on a string with no whitespace at either
end. -/
theorem pyStrip_eq_self {s : PyStr}
    (hh : (s.head?).all (fun c => !pyIsSpace c) = true)
    (hl : (s.getLast?).all (fun c => !pyIsSpace c) = true) : pyStrip s = s := by
  rw [pyStrip, dropWhile_eq_self_of_head hh, dropWhile_eq_self_of_head ?_,
    List.reverse_reverse]
  rw [List.head?_reverse]
  exact hl

/-! ### Invariants of `as_markdown` -/

/-- Normalized output never holds a carriage return. -/
theorem as_markdown_no_cr (s : PyStr) : crC ∉ as_markdown s := by
  rw [as_markdown]
  apply pyStrip_not_mem
  apply collapseGo_not_mem (by decide)
  exact pyReplaceGo_cr_not_mem _ _ (le_refl _)

/-- Normalized output never holds three consecutive newlines. -/
theorem as_markdown_no_nl3 (s : PyStr) :
    listContains nl3 (as_markdown s) = false := by
  rw [as_markdown]
  apply pyStrip_not_contains
  exact collapseGo_no_nl3 _ _ (le_refl _)

/-- Normalized output never starts with whitespace. -/
theorem as_markdown_head_all (s : PyStr) :
    ((as_markdown s).head?).all (fun c => !pyIsSpace c) = true := by
  rw [as_markdown]
  exact pyStrip_head_all _

/-- Normalized output never ends with whitespace. -/
theorem as_markdown_getLast_all (s : PyStr) :
    ((as_markdown s).getLast?).all (fun c => !pyIsSpace c) = true := by
  rw [as_markdown]
  exact pyStrip_getLast_all _

/-! ### Claim C9 -/

/-- C9: for every input, `as_markdown` returns a string with no carriage
return, no run of three consecutive newlines, and no leading or trailing
whitespace. -/
theorem as_markdown_postconditions (s : PyStr) :
    crC ∉ as_markdown s ∧
    listContains nl3 (as_markdown s) = false ∧
    ((as_markdown s).head?).all (fun c => !pyIsSpace c) = true ∧
    ((as_markdown s).getLast?).all (fun c => !pyIsSpace c) = true :=
  ⟨as_markdown_no_cr s, as_markdown_no_nl3 s,
    as_markdown_head_all s, as_markdown_getLast_all s⟩

/-! ### Claim C1 -/

/-- An input whose normalization still begins with the wrapper marker:
`content=` quote `content=` quote `abc` quote quote. -/
def cexWrapped : PyStr :=
  "content=".data ++ [sqC] ++ "content=".data ++ [sqC] ++ "abc".data ++ [sqC, sqC]

/-- C1 counterexample: `as_markdown` is not idempotent.  On `cexWrapped`
the first pass yields `content=` quote `abc` quote (a normalized text
that itself begins with the wrapper marker), and the second pass strips
that wrapper again, yielding `abc`. -/
theorem as_markdown_not_idempotent :
    as_markdown (as_markdown cexWrapped) ≠ as_markdown cexWrapped := by decide

/-- C1 amended: `as_markdown` is idempotent on every string whose
normalized output does not itself begin with one of the two wrapper
markers and does not contain the two-character literal backslash-n
sequence. -/
theorem as_markdown_idempotent_unless_wrapper (s : PyStr)
    (h1 : listStartsWith (as_markdown s) contentSq = false)
    (h2 : listStartsWith (as_markdown s) contentDq = false)
    (h3 : listContains bsnS (as_markdown s) = false) :
    as_markdown (as_markdown s) = as_markdown s := by
  have hw : stripWrapper (as_markdown s) = as_markdown s := by
    rw [stripWrapper, if_neg]
    simp [h1, h2]
  have hcr : listContains crS (as_markdown s) = false := by
    rcases hb : listContains crS (as_markdown s) with _ | _
    · rfl
    · exact absurd ((listContains_singleton crC _).mp (by simpa [crS] using hb))
        (as_markdown_no_cr s)
  conv_lhs => rw [as_markdown]
  rw [hw, pyReplace_of_not_contains nl1 h3, pyReplace_of_not_contains [] hcr,
    show collapseNewlines (as_markdown s) = as_markdown s from
      collapseGo_fix _ (as_markdown_no_nl3 s)]
  exact pyStrip_eq_self (as_markdown_head_all s) (as_markdown_getLast_all s)

/-- A concrete messy input for the idempotence witness. -/
def idemWitnessInput : PyStr :=
  "  hello".data ++ [nlC, nlC, nlC, nlC] ++ "world  ".data

/-- Witness for the amended C1 theorem at a concrete input. -/
theorem as_markdown_idempotent_unless_wrapper_witness :
    listStartsWith (as_markdown idemWitnessInput) contentSq = false ∧
    listStartsWith (as_markdown idemWitnessInput) contentDq = false ∧
    listContains bsnS (as_markdown idemWitnessInput) = false ∧
    as_markdown (as_markdown idemWitnessInput) = as_markdown idemWitnessInput :=
  ⟨by decide, by decide, by decide,
    as_markdown_idempotent_unless_wrapper idemWitnessInput
      (by decide) (by decide) (by decide)⟩

/-! ### Call-list helper lemmas -/

theorem gen_career_calls (c s : PyStr) (f : LLM) :
    (generate_career_insights c s (some f)).2 = [career_prompt c s] := by
  cases hq : f (career_prompt c s) <;> simp [generate_career_insights, hq]

theorem gen_market_calls (s : PyStr) (f : LLM) :
    (generate_market_analysis s (some f)).2 = [market_prompt s] := by
  cases hq : f (market_prompt s) <;> simp [generate_market_analysis, hq]

theorem gen_college_calls (s : PyStr) (f : LLM) :
    (generate_college_recommendations s (some f)).2 = [college_prompt s] := by
  cases hq : f (college_prompt s) <;> simp [generate_college_recommendations, hq]

theorem gen_resume_calls (rt role : PyStr) (f : LLM) :
    (generate_resume_feedback rt role (some f)).2 = [resume_prompt rt role] := by
  cases hq : f (resume_prompt rt role) <;> simp [generate_resume_feedback, hq]

/-- Every role label of the static taxonomy is non-empty. -/
theorem taxonomy_roles_nonempty :
    ∀ pr ∈ CAREER_CATEGORIES, ∀ r ∈ pr.2, r ≠ [] := by decide

/-! ### Claim C2 -/

/-- C2: the Analyze Resume handler warns and leaves the state and the
model untouched when the stripped resume text is shorter than 100
characters, and proceeds to generate and cache feedback otherwise. -/
theorem resume_min_length (st : SessionState)
    (resume_text target_role_input selected_subcareer : PyStr) (llm : Option LLM) :
    ((pyStrip resume_text).length < 100 →
      analyzeResumeStep st resume_text target_role_input selected_subcareer llm
        = (st, true, [])) ∧
    (100 ≤ (pyStrip resume_text).length →
      (analyzeResumeStep st resume_text target_role_input selected_subcareer llm).2.1
          = false ∧
      (analyzeResumeStep st resume_text target_role_input selected_subcareer llm).1
        = { st with resume_feedback := some (generate_resume_feedback resume_text
            (if target_role_input ≠ [] then target_role_input else selected_subcareer)
            llm).1 } ∧
      (analyzeResumeStep st resume_text target_role_input selected_subcareer llm).2.2
        = (generate_resume_feedback resume_text
            (if target_role_input ≠ [] then target_role_input else selected_subcareer)
            llm).2) := by
  constructor
  · intro h
    rw [analyzeResumeStep, if_pos (Or.inr h)]
  · intro h
    have hcond : ¬ (resume_text = [] ∨ (pyStrip resume_text).length < 100) := by
      rintro (rfl | hlen)
      · simp [pyStrip] at h
      · omega
    rw [analyzeResumeStep, if_neg hcond]
    exact ⟨rfl, rfl, rfl⟩

/-- A too-short concrete resume text. -/
def rtShort : PyStr := "short resume".data

/-- A long-enough concrete resume text. -/
def rtLong : PyStr := List.replicate 150 'a'

/-- A concrete initialized session value. -/
def wSession : SessionState :=
  ⟨[], [], none, none, none, none, none, false, "career_insights".data⟩

/-- Witness for C2 at concrete short and long resume texts. -/
theorem resume_min_length_witness :
    ((pyStrip rtShort).length < 100 ∧
      analyzeResumeStep wSession rtShort [] "Data Scientist".data none
        = (wSession, true, [])) ∧
    (100 ≤ (pyStrip rtLong).length ∧
      ((analyzeResumeStep wSession rtLong [] "Data Scientist".data none).2.1 = false ∧
       (analyzeResumeStep wSession rtLong [] "Data Scientist".data none).1
         = { wSession with resume_feedback := some (generate_resume_feedback rtLong
             (if ([] : PyStr) ≠ [] then [] else "Data Scientist".data) none).1 } ∧
       (analyzeResumeStep wSession rtLong [] "Data Scientist".data none).2.2
         = (generate_resume_feedback rtLong
             (if ([] : PyStr) ≠ [] then [] else "Data Scientist".data) none).2)) :=
  ⟨⟨by decide,
    (resume_min_length wSession rtShort [] "Data Scientist".data none).1 (by decide)⟩,
   ⟨by decide,
    (resume_min_length wSession rtLong [] "Data Scientist".data none).2 (by decide)⟩⟩

/-! ### Claim C3 -/

/-- C3: each prompt builder embeds its supplied parameters verbatim as
contiguous substrings. -/
theorem prompts_embed_verbatim (category subcareer resume_text target_role : PyStr) :
    (∃ a b, career_prompt category subcareer = a ++ category ++ b) ∧
    (∃ a b, career_prompt category subcareer = a ++ subcareer ++ b) ∧
    (∃ a b, market_prompt subcareer = a ++ subcareer ++ b) ∧
    (∃ a b, college_prompt subcareer = a ++ subcareer ++ b) ∧
    (∃ a b, resume_prompt resume_text target_role = a ++ target_role ++ b) ∧
    (∃ a b, resume_prompt resume_text target_role = a ++ resume_text ++ b) := by
  refine ⟨⟨careerPromptA, careerPromptB ++ subcareer ++ careerPromptC, ?_⟩,
    ⟨careerPromptA ++ category ++ careerPromptB, careerPromptC, ?_⟩,
    ⟨marketPromptA, marketPromptB, ?_⟩,
    ⟨collegePromptA, collegePromptB, ?_⟩,
    ⟨resumePromptA, resumePromptB ++ resume_text ++ resumePromptC, ?_⟩,
    ⟨resumePromptA ++ target_role ++ resumePromptB, resumePromptC, ?_⟩⟩ <;>
  simp [career_prompt, market_prompt, college_prompt, resume_prompt, List.append_assoc]

/-! ### Claim C4 -/

/-- C4: a chat interaction only appends entries to the transcript, in
order, and every appended entry has role `user` or `assistant`. -/
theorem chat_append_only (st : SessionState) (chat_input : Option PyStr) (agent : LLM) :
    ∃ newEntries,
      (chatStep st chat_input agent).1.chat_messages
        = st.chat_messages ++ newEntries ∧
      newEntries.all
        (fun m => m.role == "user".data || m.role == "assistant".data) = true := by
  cases chat_input with
  | none => exact ⟨[], by simp [chatStep], rfl⟩
  | some p =>
    cases hq : agent (chatPromptOf st p) with
    | ok r =>
      exact ⟨[ChatMsg.mk "user".data p, ChatMsg.mk "assistant".data (as_markdown r)],
        by simp [chatStep, hq, chatMsgs1], by simp⟩
    | error e =>
      exact ⟨[ChatMsg.mk "user".data p, ChatMsg.mk "assistant".data (errChat ++ e)],
        by simp [chatStep, hq, chatMsgs1], by simp⟩

/-! ### Claim C5 -/

/-- C5: clearing the session and re-initializing yields the defaults
for every key: empty transcripts, `None` for every cached feature
result, and a `False` credentials flag. -/
theorem clear_session_resets (p : PSession) :
    initialize_session_state (clearSessionKeys p) =
      { chat_history := some [], chat_messages := some [],
        career_insights := some none, market_analysis := some none,
        college_recommendations := some none, resume_feedback := some none,
        selected_career := some none, api_keys_validated := some false,
        active_tab := some "career_insights".data } := rfl

/-! ### Claim C6 -/

/-- C6: when the model/agent invocation raises, every feature returns or
records the inline error message instead of propagating, and the oracle
is consulted at most once per user action. -/
theorem failures_caught (cat sub rt role q : PyStr) (st : SessionState)
    (f : LLM) (e : PyStr) (hf : ∀ x, f x = Except.error e) :
    (generate_career_insights cat sub (some f)).1 = errCareer ++ e ∧
    (generate_career_insights cat sub (some f)).2.length ≤ 1 ∧
    (generate_career_insights cat sub none).1 = errCareer ++ errNoLLM ∧
    (generate_market_analysis sub (some f)).1 = errMarket ++ e ∧
    (generate_market_analysis sub (some f)).2.length ≤ 1 ∧
    (generate_college_recommendations sub (some f)).1 = errCollege ++ e ∧
    (generate_college_recommendations sub (some f)).2.length ≤ 1 ∧
    (generate_resume_feedback rt role (some f)).1 = errResume ++ e ∧
    (generate_resume_feedback rt role (some f)).2.length ≤ 1 ∧
    (chatStep st (some q) f).1.chat_messages
      = st.chat_messages ++ [ChatMsg.mk "user".data q,
          ChatMsg.mk "assistant".data (errChat ++ e)] ∧
    (chatStep st (some q) f).2.length ≤ 1 := by
  refine ⟨?_, ?_, ?_, ?_, ?_, ?_, ?_, ?_, ?_, ?_, ?_⟩ <;>
    simp [generate_career_insights, generate_market_analysis,
      generate_college_recommendations, generate_resume_feedback,
      chatStep, chatMsgs1, hf]

/-- A model oracle that always raises. -/
def failF : LLM := fun _ => Except.error "boom".data

/-- Witness for C6 with a concretely failing oracle. -/
theorem failures_caught_witness :
    (∀ x, failF x = Except.error "boom".data) ∧
    ((generate_career_insights "c".data "s".data (some failF)).1
        = errCareer ++ "boom".data ∧
     (generate_career_insights "c".data "s".data (some failF)).2.length ≤ 1 ∧
     (generate_career_insights "c".data "s".data none).1 = errCareer ++ errNoLLM ∧
     (generate_market_analysis "s".data (some failF)).1 = errMarket ++ "boom".data ∧
     (generate_market_analysis "s".data (some failF)).2.length ≤ 1 ∧
     (generate_college_recommendations "s".data (some failF)).1
        = errCollege ++ "boom".data ∧
     (generate_college_recommendations "s".data (some failF)).2.length ≤ 1 ∧
     (generate_resume_feedback "r".data "t".data (some failF)).1
        = errResume ++ "boom".data ∧
     (generate_resume_feedback "r".data "t".data (some failF)).2.length ≤ 1 ∧
     (chatStep wSession (some "q".data) failF).1.chat_messages
        = wSession.chat_messages ++ [ChatMsg.mk "user".data "q".data,
            ChatMsg.mk "assistant".data (errChat ++ "boom".data)] ∧
     (chatStep wSession (some "q".data) failF).2.length ≤ 1) :=
  ⟨fun _ => rfl,
    failures_caught "c".data "s".data "r".data "t".data "q".data wSession failF
      "boom".data (fun _ => rfl)⟩

/-! ### Claim C7 -/

/-- C7: with either credential empty, a render cycle of `main` performs
no model or search call, leaves the credentials flag `False`, and
`initialize_llm_and_tools` yields the `(None, None)` pair. -/
theorem no_calls_without_both_keys (inp : MainInput) (p0 : PSession)
    (mkInit mkAgent : Except PyStr LLM)
    (h : inp.google_key = [] ∨ inp.serpapi_key = []) :
    (mainStep inp p0 mkInit mkAgent).2 = [] ∧
    (mainStep inp p0 mkInit mkAgent).1.api_keys_validated = some false ∧
    initialize_llm_and_tools inp.google_key inp.serpapi_key mkInit
      = (none, none) := by
  have hok : (!inp.google_key.isEmpty && !inp.serpapi_key.isEmpty) = false := by
    rcases h with h | h <;> simp [h]
  refine ⟨?_, ?_, ?_⟩
  · simp [mainStep, hok]
  · simp [mainStep, hok, ofSession]
  · rcases h with h | h
    · simp [initialize_llm_and_tools, h]
    · by_cases hg : inp.google_key = []
      · simp [initialize_llm_and_tools, hg]
      · simp [initialize_llm_and_tools, hg, h]

/-- A wholly absent session dictionary. -/
def wPSession : PSession := ⟨none, none, none, none, none, none, none, none, none⟩

/-- A concrete render-cycle input with an empty model key. -/
def wMainInput : MainInput where
  google_key := []
  serpapi_key := "key".data
  selected_category := "cat".data
  selected_subcareer := "sub".data
  btn_career_insights := true
  btn_market_analysis := true
  btn_college_recs := true
  btn_resume_analysis := true
  resume_text := rtLong
  target_role_input := []
  chat_input := some "hello".data

/-- A concretely failing initializer. -/
def failInit : Except PyStr LLM := Except.error []

/-- Witness for C7 at a concrete cycle with an empty model key. -/
theorem no_calls_without_both_keys_witness :
    (wMainInput.google_key = [] ∨ wMainInput.serpapi_key = []) ∧
    ((mainStep wMainInput wPSession failInit failInit).2 = [] ∧
     (mainStep wMainInput wPSession failInit failInit).1.api_keys_validated
        = some false ∧
     initialize_llm_and_tools wMainInput.google_key wMainInput.serpapi_key failInit
        = (none, none)) :=
  ⟨Or.inl rfl,
    no_calls_without_both_keys wMainInput wPSession failInit failInit (Or.inl rfl)⟩

/-! ### Claim C8 -/

/-- Shape of the accepting branch of the Analyze Resume handler. -/
theorem analyzeResumeStep_accept {resume_text : PyStr} (st : SessionState)
    (target_role_input subcareer : PyStr) (llm : Option LLM)
    (h : ¬(resume_text = [] ∨ (pyStrip resume_text).length < 100)) :
    analyzeResumeStep st resume_text target_role_input subcareer llm =
      ({ st with resume_feedback := some (generate_resume_feedback resume_text
          (if target_role_input ≠ [] then target_role_input else subcareer) llm).1 },
        false,
        (generate_resume_feedback resume_text
          (if target_role_input ≠ [] then target_role_input else subcareer) llm).2) := by
  rw [analyzeResumeStep, if_neg h]

/-- C8: whenever the resume-feedback path reaches the model with a role
picked from the taxonomy, the prompt embeds a non-empty target role. -/
theorem resume_role_nonempty (st : SessionState)
    (resume_text target_role_input subcareer cat : PyStr) (roles : List PyStr)
    (f : LLM) (hcat : (cat, roles) ∈ CAREER_CATEGORIES) (hsub : subcareer ∈ roles) :
    ∀ p ∈ (analyzeResumeStep st resume_text target_role_input subcareer (some f)).2.2,
      ∃ role, p = resume_prompt resume_text role ∧ role ≠ [] := by
  intro p hp
  by_cases hc : resume_text = [] ∨ (pyStrip resume_text).length < 100
  · rw [analyzeResumeStep, if_pos hc] at hp
    simp at hp
  · rw [analyzeResumeStep_accept st target_role_input subcareer (some f) hc] at hp
    simp only [gen_resume_calls, List.mem_singleton] at hp
    refine ⟨if target_role_input ≠ [] then target_role_input else subcareer, hp, ?_⟩
    by_cases ht : target_role_input ≠ []
    · simp [ht]
    · have hsne : subcareer ≠ [] :=
        taxonomy_roles_nonempty (cat, roles) hcat subcareer hsub
      simpa [ht] using hsne

/-- The first taxonomy entry. -/
def techPair : PyStr × List PyStr := CAREER_CATEGORIES.headI

/-- An always-succeeding oracle. -/
def okF : LLM := fun _ => Except.ok "answer".data

/-- Witness for C8 at a concrete taxonomy role and long resume. -/
theorem resume_role_nonempty_witness :
    (techPair.1, techPair.2) ∈ CAREER_CATEGORIES ∧
    "Data Scientist".data ∈ techPair.2 ∧
    ∀ p ∈ (analyzeResumeStep wSession rtLong [] "Data Scientist".data (some okF)).2.2,
      ∃ role, p = resume_prompt rtLong role ∧ role ≠ [] :=
  ⟨by decide, by decide,
    resume_role_nonempty wSession rtLong [] "Data Scientist".data techPair.1
      techPair.2 okF (by decide) (by decide)⟩

/-! ### Claim C10 -/

/-- C10: the context embedded in the chat prompt is exactly the last
eight entries of the transcript (all of it when fewer than eight exist),
joined in transcript order; entries before the window never appear. -/
theorem chat_context_window (st : SessionState) (p : PyStr) (agent : LLM) :
    ∃ earlier ctxMsgs,
      chatMsgs1 st p = earlier ++ ctxMsgs ∧
      ctxMsgs.length = min 8 (chatMsgs1 st p).length ∧
      (chatStep st (some p) agent).2
        = [chat_prompt_text (renderContext ctxMsgs) p] := by
  refine ⟨(chatMsgs1 st p).take ((chatMsgs1 st p).length - 8),
    (chatMsgs1 st p).drop ((chatMsgs1 st p).length - 8), ?_, ?_, ?_⟩
  · rw [List.take_append_drop]
  · rw [List.length_drop]
    omega
  · cases hq : agent (chatPromptOf st p) <;>
      simp only [chatStep, hq] <;> simp [chatPromptOf]
